import Mathlib

/-!
Shallow embedding of the Avalon game core (`src/game/rules.py`,
`src/game/roles.py`, `src/game/game_engine.py`).

Conventions of the embedding:
* Python enums become Lean inductives; the `Role` dataclass carries only
  data derived from `role_type` (its `team` and `can_see` predicate), so we
  represent a role by its `RoleType` and expose `team` / `can_see` as
  functions on it, exactly following `ROLE_DEFINITIONS` and `Role.can_see`.
* Python dicts used as vote maps become association lists
  `List (Nat × Bool)`; the engine only ever inserts a key after checking it
  is absent, so list length is dict size and `sum(1 for v in d.values() if v)`
  is a count over the list.
* Methods that mutate `self.state` and return a value become functions
  `GameState → args → GameState × ret`.  A method that can raise an
  unhandled Python exception (`IndexError` from `mission_configs[...]`,
  `ZeroDivisionError` from `% len(players)`, `StopIteration` from a bare
  `next(...)`) returns `GameState × Option ret`: the `GameState` component
  is the state at the moment the call returns or the exception escapes
  (mutations already applied stay applied), and `none` marks the escaped
  exception.
* `configs[current_round - 1]` in Python uses a *negative* index when
  `current_round = 0` (`configs[-1]` is the last element); `current_round`
  is a `Nat` here, so the only negative case is `current_round = 0`, handled
  explicitly in `py_current_config`.
-/

set_option maxRecDepth 8000

namespace Avalon

/-- Embeds `Team` enum of `rules.py`. -/
inductive Team where
  | GOOD
  | EVIL
deriving DecidableEq, Repr

/-- Embeds `GamePhase` enum of `rules.py`. -/
inductive GamePhase where
  | INITIALIZATION
  | DISCUSSION
  | VOTING
  | MISSION
  | ASSASSINATION
  | FINISHED
deriving DecidableEq, Repr

/-- Embeds `RoleType` enum of `roles.py`. -/
inductive RoleType where
  | MERLIN
  | PERCIVAL
  | SERVANT
  | ASSASSIN
  | MORGANA
  | MORDRED
  | OBERON
  | MINION
deriving DecidableEq, Repr

/-- The `team` field of each entry of `ROLE_DEFINITIONS` in `roles.py`. -/
def RoleType.team : RoleType → Team
  | .MERLIN => .GOOD
  | .PERCIVAL => .GOOD
  | .SERVANT => .GOOD
  | .ASSASSIN => .EVIL
  | .MORGANA => .EVIL
  | .MORDRED => .EVIL
  | .OBERON => .EVIL
  | .MINION => .EVIL

/-- Embeds `Role.can_see` of `roles.py`: whether a holder of role `self` can see the
allegiance of a holder of role `other`.  The Python method reads only
`self.role_type`, `other.team` and `other.role_type`. -/
def can_see (self other : RoleType) : Bool :=
  match self with
  | .MERLIN => other.team == Team.EVIL &&
      !(other == RoleType.MORDRED || other == RoleType.MORGANA)
  | .PERCIVAL => other == RoleType.MERLIN || other == RoleType.MORGANA
  | .ASSASSIN => other.team == Team.EVIL && other != RoleType.OBERON
  | .MORGANA => other.team == Team.EVIL && other != RoleType.OBERON
  | .MINION => other.team == Team.EVIL && other != RoleType.OBERON
  | .MORDRED => other.team == Team.EVIL && other != RoleType.OBERON
  | .OBERON => false
  | .SERVANT => false

/-- Embeds `MissionConfig` dataclass of `rules.py`. -/
structure MissionConfig where
  round_number : Nat
  team_size : Nat
  fails_needed : Nat
deriving DecidableEq, Repr

/-- Embeds `MISSION_CONFIGS_5` of `rules.py`. -/
def MISSION_CONFIGS_5 : List MissionConfig :=
  [⟨1, 2, 1⟩, ⟨2, 3, 1⟩, ⟨3, 2, 1⟩, ⟨4, 3, 1⟩, ⟨5, 3, 1⟩]

/-- Embeds `MISSION_CONFIGS_6` of `rules.py`. -/
def MISSION_CONFIGS_6 : List MissionConfig :=
  [⟨1, 2, 1⟩, ⟨2, 3, 1⟩, ⟨3, 4, 1⟩, ⟨4, 3, 1⟩, ⟨5, 4, 1⟩]

/-- Embeds `MISSION_CONFIGS_7` of `rules.py`. -/
def MISSION_CONFIGS_7 : List MissionConfig :=
  [⟨1, 2, 1⟩, ⟨2, 3, 1⟩, ⟨3, 3, 1⟩, ⟨4, 4, 2⟩, ⟨5, 4, 1⟩]

/-- Embeds `MISSION_CONFIGS_8` of `rules.py`. -/
def MISSION_CONFIGS_8 : List MissionConfig :=
  [⟨1, 3, 1⟩, ⟨2, 4, 1⟩, ⟨3, 4, 1⟩, ⟨4, 5, 2⟩, ⟨5, 5, 1⟩]

/-- Embeds `MISSION_CONFIGS_9` of `rules.py`. -/
def MISSION_CONFIGS_9 : List MissionConfig :=
  [⟨1, 3, 1⟩, ⟨2, 4, 1⟩, ⟨3, 4, 1⟩, ⟨4, 5, 2⟩, ⟨5, 5, 1⟩]

/-- Embeds `MISSION_CONFIGS_10` of `rules.py`. -/
def MISSION_CONFIGS_10 : List MissionConfig :=
  [⟨1, 3, 1⟩, ⟨2, 4, 1⟩, ⟨3, 4, 1⟩, ⟨4, 5, 2⟩, ⟨5, 5, 1⟩]

/-- Embeds `get_mission_configs` of `rules.py`; `configs.get(player_count,
MISSION_CONFIGS_5)` falls back to the 5-player table for any count outside
5..10. -/
def get_mission_configs (player_count : Nat) : List MissionConfig :=
  match player_count with
  | 5 => MISSION_CONFIGS_5
  | 6 => MISSION_CONFIGS_6
  | 7 => MISSION_CONFIGS_7
  | 8 => MISSION_CONFIGS_8
  | 9 => MISSION_CONFIGS_9
  | 10 => MISSION_CONFIGS_10
  | _ => MISSION_CONFIGS_5

/-- Embeds `get_evil_count` of `rules.py`; `evil_counts.get(player_count, 2)` falls
back to 2 outside 5..10. -/
def get_evil_count (player_count : Nat) : Nat :=
  match player_count with
  | 5 => 2
  | 6 => 2
  | 7 => 3
  | 8 => 3
  | 9 => 3
  | 10 => 4
  | _ => 2

/-- Embeds `get_standard_roles` of `roles.py`; the `else` branch falls back to the
5-player configuration for any count outside 5..10. -/
def get_standard_roles (player_count : Nat) : List RoleType :=
  match player_count with
  | 5 => [.MERLIN, .ASSASSIN, .SERVANT, .MORGANA, .PERCIVAL]
  | 6 => [.MERLIN, .ASSASSIN, .PERCIVAL, .SERVANT, .SERVANT, .MORGANA]
  | 7 => [.MERLIN, .ASSASSIN, .PERCIVAL, .MORGANA, .SERVANT, .SERVANT,
          .MINION]
  | 8 => [.MERLIN, .ASSASSIN, .PERCIVAL, .MORGANA, .SERVANT, .SERVANT,
          .SERVANT, .MINION]
  | 9 => [.MERLIN, .ASSASSIN, .PERCIVAL, .MORGANA, .MORDRED, .SERVANT,
          .SERVANT, .SERVANT, .MINION]
  | 10 => [.MERLIN, .ASSASSIN, .PERCIVAL, .MORGANA, .MORDRED, .OBERON,
           .SERVANT, .SERVANT, .SERVANT, .MINION]
  | _ => [.MERLIN, .ASSASSIN, .SERVANT, .MORGANA, .PERCIVAL]

/-- Embeds `Player` dataclass of `game_engine.py`.  The `role` field of the Python
dataclass is entirely determined by `role_type` via `get_role`, so it is not
duplicated here. -/
structure Player where
  player_id : Nat
  name : String
  role_type : RoleType
deriving DecidableEq, Repr

/-- Embeds `MissionResult` dataclass of `game_engine.py`. -/
structure MissionResult where
  round_number : Nat
  team_members : List Nat
  votes : List (Nat × Bool)
  success : Bool
  fail_count : Nat
deriving DecidableEq, Repr

/-- Embeds `GameState` dataclass of `game_engine.py`. -/
structure GameState where
  players : List Player := []
  current_phase : GamePhase := .INITIALIZATION
  current_round : Nat := 0
  current_leader : Nat := 0
  mission_configs : List MissionConfig := []
  mission_results : List MissionResult := []
  proposed_team : List Nat := []
  votes : List (Nat × Bool) := []
  vote_round : Nat := 0
  successful_missions : Nat := 0
  failed_missions : Nat := 0
  game_over : Bool := false
  winner : Option Team := none
  assassination_target : Option Nat := none
deriving DecidableEq, Repr

/-! ### InformationFilter (`game_engine.py` lines 75-184) -/

/-- One entry of the per-player information dictionaries built by
`InformationFilter.get_private_info`.  The Python dict literals omit some
keys per branch; an omitted `role`/`team` key and an explicit `None` both
become `none` here, and the `possible_merlin` key (present only in the
Percival branches, always `True` there) becomes a `Bool` that is `false`
when the key is absent. -/
structure PlayerEntry where
  player_id : Nat
  name : String
  is_self : Bool
  role : Option RoleType
  team : Option Team
  possible_merlin : Bool
deriving DecidableEq, Repr

/-- Return value of `InformationFilter.get_private_info`. -/
structure PrivateInfo where
  my_role : RoleType
  my_team : Team
  visible_players : List PlayerEntry
  all_players : List PlayerEntry
  total_players : Nat
deriving DecidableEq, Repr

/-- Embeds `InformationFilter.get_visible_players`: self first, then every other
player (in `all_players` order) whose role the viewer's role can see. -/
def get_visible_players (player : Player) (all_players : List Player) :
    List Player :=
  player :: all_players.filter (fun other =>
    other.player_id != player.player_id &&
    can_see player.role_type other.role_type)

/-- The dict built for one visible player inside
`InformationFilter.get_private_info`.  The same three-way branch (self /
Percival viewer / other viewer) appears verbatim twice in the Python source
(in the `visible_info` loop and in the visible case of the
`all_players_info` loop), with identical dict literals. -/
def render_visible_entry (player vp : Player) : PlayerEntry :=
  if vp.player_id = player.player_id then
    { player_id := vp.player_id, name := vp.name, is_self := true,
      role := some vp.role_type, team := some vp.role_type.team,
      possible_merlin := false }
  else if player.role_type = RoleType.PERCIVAL then
    { player_id := vp.player_id, name := vp.name, is_self := false,
      role := none, team := none, possible_merlin := true }
  else
    { player_id := vp.player_id, name := vp.name, is_self := false,
      role := none, team := some vp.role_type.team,
      possible_merlin := false }

/-- The dict built in `get_private_info` for a player that is not visible
to the viewer (`team: None, role: None`). -/
def render_hidden_entry (p : Player) : PlayerEntry :=
  { player_id := p.player_id, name := p.name, is_self := false,
    role := none, team := none, possible_merlin := false }

/-- The body of the `all_players_info` loop of `get_private_info`: the
`p.player_id in visible_ids` membership test followed by
`next(vp for vp in visible_players if vp.player_id == p.player_id)` is
exactly a `find?` over the visible list (the membership test succeeds iff
the find does), and on a hit the same three-way dict literal as in the
`visible_info` loop is built. -/
def render_all_entry (player : Player) (visible : List Player)
    (p : Player) : PlayerEntry :=
  match visible.find? (fun vp => vp.player_id == p.player_id) with
  | some vp => render_visible_entry player vp
  | none => render_hidden_entry p

/-- Embeds `InformationFilter.get_private_info`. -/
def get_private_info (player : Player) (all_players : List Player) :
    PrivateInfo :=
  let visible := get_visible_players player all_players
  { my_role := player.role_type
    my_team := player.role_type.team
    visible_players := visible.map (render_visible_entry player)
    all_players := all_players.map (render_all_entry player visible)
    total_players := all_players.length }

/-! ### WinConditionChecker (`game_engine.py` lines 187-224) -/

/-- Embeds `WinConditionChecker.check_game_over`.  Returns `none` when the bare
`next(p for p in state.players if p.player_id == state.assassination_target)`
raises `StopIteration` (no player has the target id); otherwise
`some (is_over, winner)`. -/
def check_game_over (state : GameState) : Option (Bool × Option Team) :=
  if state.successful_missions ≥ 3 then
    if state.current_phase = GamePhase.ASSASSINATION then
      match state.assassination_target with
      | some target =>
        match state.players.find? (fun p => p.player_id == target) with
        | some target_player =>
          if target_player.role_type = RoleType.MERLIN then
            some (true, some Team.EVIL)
          else
            some (true, some Team.GOOD)
        | none => none
      | none => some (false, none)
    else
      some (false, none)
  else if state.failed_missions ≥ 3 then
    some (true, some Team.EVIL)
  else if state.vote_round ≥ 5 ∧
      state.current_round < state.mission_configs.length then
    some (true, some Team.EVIL)
  else
    some (false, none)

/-! ### RoleDistributor and construction (`game_engine.py` lines 56-72,
227-256) -/

/-- Embeds `RoleDistributor.distribute_roles`, parameterised by the result of
`random.shuffle(roles)`: `shuffled` stands for the shuffled role list (a
permutation of `get_standard_roles player_count`; theorems that depend on
that carry it as a `Perm` hypothesis).  Python's
`enumerate(zip(player_names, roles))` silently stops at the shorter of the
two lists. -/
def distribute_roles (player_names : List String)
    (shuffled : List RoleType) : List (Nat × String × RoleType) :=
  (player_names.zip shuffled).enum.map (fun ir => (ir.1, ir.2.1, ir.2.2))

/-- Embeds `GameEngine.__init__` (via `_initialize_players` and
`_initialize_game`), parameterised like `distribute_roles` by the shuffled
role list.  The constructor performs no validation: it builds the players
from the zipped assignments, looks up the mission configs (with the
5-player fallback of `get_mission_configs`), and starts in DISCUSSION at
round 1 with leader 0. -/
def new_game (player_count : Nat) (player_names : List String)
    (shuffled : List RoleType) : GameState :=
  { players := (distribute_roles player_names shuffled).map
      (fun a => { player_id := a.1, name := a.2.1, role_type := a.2.2 })
    mission_configs := get_mission_configs player_count
    current_phase := GamePhase.DISCUSSION
    current_round := 1
    current_leader := 0
    vote_round := 0 }

/-! ### GameEngine actions (`game_engine.py` lines 263-428) -/

/-- The keys of a vote dict (association list). -/
def vote_keys (votes : List (Nat × Bool)) : List Nat := votes.map Prod.fst

/-- Embeds `sum(1 for v in votes.values() if v)`. -/
def approve_count (votes : List (Nat × Bool)) : Nat :=
  (votes.filter (fun kv => kv.2)).length

/-- Embeds `sum(1 for v in mission_votes.values() if not v)`. -/
def fail_count_of (votes : List (Nat × Bool)) : Nat :=
  (votes.filter (fun kv => !kv.2)).length

/-- Python `set(a) == set(b)` on lists of ids. -/
def same_id_set (a b : List Nat) : Bool :=
  a.all (fun x => b.contains x) && b.all (fun x => a.contains x)

/-- Embeds `state.mission_configs[state.current_round - 1]` with Python indexing:
for `current_round = 0` the Python index is `-1`, i.e. the last element;
out-of-range indexing raises (`none`). -/
def py_current_config (state : GameState) : Option MissionConfig :=
  if state.current_round = 0 then state.mission_configs.getLast?
  else state.mission_configs.get? (state.current_round - 1)

/-- Embeds `GameEngine.propose_team`.  Returns `(state', some ok)`; `none` marks
the `IndexError` escaping from the config lookup (state unchanged then,
since nothing was mutated yet). -/
def propose_team (state : GameState) (leader_id : Nat)
    (team_members : List Nat) : GameState × Option Bool :=
  if leader_id ≠ state.current_leader then
    (state, some false)
  else
    match py_current_config state with
    | none => (state, none)
    | some current_config =>
      if team_members.length ≠ current_config.team_size then
        (state, some false)
      else if !(team_members.all (fun mid =>
          state.players.any (fun p => p.player_id == mid))) then
        (state, some false)
      else
        ({ state with proposed_team := team_members,
                      current_phase := GamePhase.VOTING }, some true)

/-- Embeds `GameEngine.vote_on_team`. -/
def vote_on_team (state : GameState) (player_id : Nat) (approve : Bool) :
    GameState × Bool :=
  if state.current_phase ≠ GamePhase.VOTING then
    (state, false)
  else if (vote_keys state.votes).contains player_id then
    (state, false)
  else
    ({ state with votes := state.votes ++ [(player_id, approve)] }, true)

/-- Embeds `GameEngine.process_voting_result`.  Returns
`(state', some (completed, passed))`; `none` marks the `ZeroDivisionError`
from `% len(players)` when the player list is empty (the `vote_round`
increment before it has already happened). -/
def process_voting_result (state : GameState) :
    GameState × Option (Bool × Bool) :=
  if state.votes.length < state.players.length then
    (state, some (false, false))
  else
    let approves := approve_count state.votes
    let rejects := state.votes.length - approves
    let passed := approves > rejects
    if passed then
      ({ state with current_phase := GamePhase.MISSION, vote_round := 0 },
       some (true, true))
    else
      let state1 := { state with vote_round := state.vote_round + 1 }
      if state1.vote_round ≥ 5 then
        ({ state1 with game_over := true, winner := some Team.EVIL,
                       current_phase := GamePhase.FINISHED },
         some (true, false))
      else if state1.players.length = 0 then
        (state1, none)
      else
        ({ state1 with
            current_leader :=
              (state1.current_leader + 1) % state1.players.length,
            current_phase := GamePhase.DISCUSSION,
            votes := [] },
         some (true, false))

/-- Embeds `GameEngine.submit_mission_result`.  Returns `(state', some ok)`;
`none` marks an escaping exception (`IndexError` from the config lookup
with the state unchanged, or `ZeroDivisionError` from leader rotation with
the mutations made so far kept). -/
def submit_mission_result (state : GameState)
    (mission_votes : List (Nat × Bool)) : GameState × Option Bool :=
  if state.current_phase ≠ GamePhase.MISSION then
    (state, some false)
  else if !(same_id_set (vote_keys mission_votes) state.proposed_team) then
    (state, some false)
  else
    match py_current_config state with
    | none => (state, none)
    | some current_config =>
      let fails := fail_count_of mission_votes
      let success := fails < current_config.fails_needed
      let result : MissionResult :=
        { round_number := state.current_round
          team_members := state.proposed_team
          votes := mission_votes
          success := success
          fail_count := fails }
      let state1 :=
        { state with
            mission_results := state.mission_results ++ [result]
            successful_missions :=
              if success then state.successful_missions + 1
              else state.successful_missions
            failed_missions :=
              if success then state.failed_missions
              else state.failed_missions + 1 }
      if state1.successful_missions ≥ 3 then
        ({ state1 with current_phase := GamePhase.ASSASSINATION,
                       vote_round := 0 }, some true)
      else if state1.failed_missions ≥ 3 then
        ({ state1 with game_over := true, winner := some Team.EVIL,
                       current_phase := GamePhase.FINISHED }, some true)
      else
        let state2 := { state1 with current_round := state1.current_round + 1 }
        if state2.current_round > state2.mission_configs.length then
          if state2.successful_missions > state2.failed_missions then
            ({ state2 with game_over := true, winner := some Team.GOOD,
                           current_phase := GamePhase.FINISHED }, some true)
          else
            ({ state2 with game_over := true, winner := some Team.EVIL,
                           current_phase := GamePhase.FINISHED }, some true)
        else if state2.players.length = 0 then
          (state2, none)
        else
          ({ state2 with
              current_leader :=
                (state2.current_leader + 1) % state2.players.length,
              current_phase := GamePhase.DISCUSSION,
              proposed_team := [],
              votes := [],
              vote_round := 0 }, some true)

/-- Embeds `GameEngine.assassinate`.  The target is recorded before the win check;
`none` marks the `StopIteration` escaping from `check_game_over`'s player
lookup, with the already-recorded target kept in the state. -/
def assassinate (state : GameState) (target_player_id : Nat) :
    GameState × Option Bool :=
  if state.current_phase ≠ GamePhase.ASSASSINATION then
    (state, some false)
  else
    let state1 := { state with assassination_target := some target_player_id }
    match check_game_over state1 with
    | none => (state1, none)
    | some (over, w) =>
      if over then
        ({ state1 with game_over := true, winner := w,
                       current_phase := GamePhase.FINISHED }, some true)
      else
        (state1, some true)

/-! ### Action traces and reachability -/

/-- One call to one of the five mutating action methods of `GameEngine`. -/
inductive Action where
  | propose (leader_id : Nat) (team_members : List Nat)
  | vote (player_id : Nat) (approve : Bool)
  | processVote
  | mission (mission_votes : List (Nat × Bool))
  | kill (target : Nat)
deriving DecidableEq, Repr

/-- The state after one action call (the Python methods mutate `self.state`
in place; on an escaping exception the state at that moment is kept, as
recorded by the `GameState` component of each action function). -/
def stepState (s : GameState) : Action → GameState
  | .propose l m => (propose_team s l m).1
  | .vote p a => (vote_on_team s p a).1
  | .processVote => (process_voting_result s).1
  | .mission mv => (submit_mission_result s mv).1
  | .kill t => (assassinate s t).1

/-- Fold a list of action calls over a state. -/
def runActions (s : GameState) (acts : List Action) : GameState :=
  acts.foldl stepState s

/-- States reachable through the engine: a properly constructed game
(supported player count, matching name list, a shuffle of the standard
role list) followed by any sequence of action-method calls. -/
inductive Reachable : GameState → Prop where
  | init (player_count : Nat) (names : List String)
      (shuffled : List RoleType)
      (h5 : 5 ≤ player_count) (h10 : player_count ≤ 10)
      (hlen : names.length = player_count)
      (hperm : shuffled.Perm (get_standard_roles player_count)) :
      Reachable (new_game player_count names shuffled)
  | step (s : GameState) (a : Action) :
      Reachable s → Reachable (stepState s a)

/-! ### Concrete demonstration game (5 players, identity shuffle) -/

/-- Names for the concrete 5-player demonstration game. -/
def demo_names : List String := ["A", "B", "C", "D", "E"]

/-- The demonstration game uses the unshuffled standard 5-player role list
(the identity permutation), so player 0 is MERLIN, 1 ASSASSIN, 2 SERVANT,
3 MORGANA, 4 PERCIVAL. -/
def demo_g0 : GameState := new_game 5 demo_names (get_standard_roles 5)

/-- All five players vote the same way on the current proposal. -/
def all_vote (b : Bool) : List Action :=
  [.vote 0 b, .vote 1 b, .vote 2 b, .vote 3 b, .vote 4 b]

/-- One fully approved round-1-sized mission with team `[0, 1]`, both
members playing success, proposed by `leader`. -/
def demo_actions_to_assassination : List Action :=
  [Action.propose 0 [0, 1]] ++ all_vote true ++
    [Action.processVote, Action.mission [(0, true), (1, true)]] ++
  [Action.propose 1 [0, 1, 2]] ++ all_vote true ++
    [Action.processVote, Action.mission [(0, true), (1, true), (2, true)]] ++
  [Action.propose 2 [0, 1]] ++ all_vote true ++
    [Action.processVote, Action.mission [(0, true), (1, true)]]

/-- The demonstration state in ASSASSINATION phase after three successful
missions. -/
def demo_assassination : GameState :=
  runActions demo_g0 demo_actions_to_assassination

/-- The demonstration state after the assassin kills player 0 (MERLIN). -/
def demo_after_kill : GameState := stepState demo_assassination (.kill 0)

/-- One rejected proposal by leader `l`: propose `[0, 1]`, all reject,
resolve. -/
def reject_round (l : Nat) : List Action :=
  [Action.propose l [0, 1]] ++ all_vote false ++ [Action.processVote]

/-- The demonstration state right before resolving the fifth rejected
proposal of round 1: four rejections done (leaders 0..3), leader 4's
proposal fully voted down but not yet processed. -/
def demo_before_fifth_reject : GameState :=
  runActions demo_g0
    (reject_round 0 ++ reject_round 1 ++ reject_round 2 ++ reject_round 3 ++
     [Action.propose 4 [0, 1]] ++ all_vote false)

/-- The demonstration stalemate state: the fifth rejection resolved. -/
def demo_stalemate : GameState :=
  stepState demo_before_fifth_reject .processVote

/-- The demonstration state in VOTING phase (round 1 proposal made). -/
def demo_voting : GameState := stepState demo_g0 (.propose 0 [0, 1])

/-- The demonstration VOTING state with all five approvals cast but the
vote not yet resolved. -/
def demo_full_votes : GameState := runActions demo_g0
  ([Action.propose 0 [0, 1]] ++ all_vote true)

/-- The demonstration state right after the round-1 vote passes: MISSION
phase. -/
def demo_mission : GameState := stepState demo_full_votes .processVote

/-- The demonstration VOTING state with all five rejections cast but the
vote not yet resolved (first rejection of round 1). -/
def demo_first_reject_pre : GameState := runActions demo_g0
  ([Action.propose 0 [0, 1]] ++ all_vote false)

/-- The demonstration MISSION state of round 3 after two failed missions
(submitting another failure ends the game with an EVIL win). -/
def demo_fail2_mission : GameState := runActions demo_g0
  ([Action.propose 0 [0, 1]] ++ all_vote true ++
     [Action.processVote, Action.mission [(0, false), (1, false)]] ++
   [Action.propose 1 [0, 1, 2]] ++ all_vote true ++
     [Action.processVote,
      Action.mission [(0, false), (1, false), (2, false)]] ++
   [Action.propose 2 [0, 1]] ++ all_vote true ++ [Action.processVote])

/-- The demonstration MISSION state of round 3 after two successful
missions (submitting another success enters ASSASSINATION). -/
def demo_succ2_mission : GameState := runActions demo_g0
  ([Action.propose 0 [0, 1]] ++ all_vote true ++
     [Action.processVote, Action.mission [(0, true), (1, true)]] ++
   [Action.propose 1 [0, 1, 2]] ++ all_vote true ++
     [Action.processVote, Action.mission [(0, true), (1, true), (2, true)]] ++
   [Action.propose 2 [0, 1]] ++ all_vote true ++ [Action.processVote])

/-- One rejected proposal with a 3-member team (rounds whose team size is
3), proposed by leader `l`. -/
def reject_round3 (l : Nat) : List Action :=
  [Action.propose l [0, 1, 2]] ++ all_vote false ++ [Action.processVote]

/-- The demonstration state of a stalemate in the fifth mission round:
missions alternate success/fail (2-2 after four rounds), then round 5 sees
five rejected proposals. -/
def demo_round5_stalemate : GameState := runActions demo_g0
  ([Action.propose 0 [0, 1]] ++ all_vote true ++
     [Action.processVote, Action.mission [(0, true), (1, true)]] ++
   [Action.propose 1 [0, 1, 2]] ++ all_vote true ++
     [Action.processVote, Action.mission [(0, false), (1, true), (2, true)]] ++
   [Action.propose 2 [0, 1]] ++ all_vote true ++
     [Action.processVote, Action.mission [(0, true), (1, true)]] ++
   [Action.propose 3 [0, 1, 2]] ++ all_vote true ++
     [Action.processVote, Action.mission [(0, false), (1, true), (2, true)]] ++
   reject_round3 4 ++ reject_round3 0 ++ reject_round3 1 ++
   reject_round3 2 ++ reject_round3 3)

/-- Player 0 of the demonstration game (MERLIN). -/
def demo_merlin : Player := { player_id := 0, name := "A", role_type := .MERLIN }

/-- Player 4 of the demonstration game (PERCIVAL). -/
def demo_percival : Player :=
  { player_id := 4, name := "E", role_type := .PERCIVAL }

/-! ### General lemmas -/

theorem reachable_runActions {s : GameState} (hs : Reachable s)
    (acts : List Action) : Reachable (runActions s acts) := by
  induction acts generalizing s with
  | nil => exact hs
  | cons a as ih => exact ih (Reachable.step s a hs)

theorem reachable_demo_g0 : Reachable demo_g0 :=
  Reachable.init 5 demo_names (get_standard_roles 5)
    (by decide) (by decide) (by decide) (List.Perm.refl _)

theorem get_standard_roles_out_of_range (pc : Nat)
    (h : pc < 5 ∨ 10 < pc) : get_standard_roles pc = get_standard_roles 5 := by
  match pc, h with
  | 0, _ => rfl
  | 1, _ => rfl
  | 2, _ => rfl
  | 3, _ => rfl
  | 4, _ => rfl
  | 5, h => omega
  | 6, h => omega
  | 7, h => omega
  | 8, h => omega
  | 9, h => omega
  | 10, h => omega
  | n + 11, _ => rfl

theorem get_mission_configs_out_of_range (pc : Nat)
    (h : pc < 5 ∨ 10 < pc) : get_mission_configs pc = MISSION_CONFIGS_5 := by
  match pc, h with
  | 0, _ => rfl
  | 1, _ => rfl
  | 2, _ => rfl
  | 3, _ => rfl
  | 4, _ => rfl
  | 5, h => omega
  | 6, h => omega
  | 7, h => omega
  | 8, h => omega
  | 9, h => omega
  | 10, h => omega
  | n + 11, _ => rfl

theorem new_game_players_length (pc : Nat) (names : List String)
    (shuffled : List RoleType) :
    (new_game pc names shuffled).players.length =
      min names.length shuffled.length := by
  simp [new_game, distribute_roles]

theorem propose_team_players (s : GameState) (l : Nat) (m : List Nat) :
    (propose_team s l m).1.players = s.players := by
  unfold propose_team
  repeat' split
  all_goals rfl

theorem vote_on_team_players (s : GameState) (p : Nat) (a : Bool) :
    (vote_on_team s p a).1.players = s.players := by
  unfold vote_on_team
  repeat' split
  all_goals rfl

theorem process_voting_result_players (s : GameState) :
    (process_voting_result s).1.players = s.players := by
  unfold process_voting_result
  dsimp only
  repeat' split
  all_goals rfl

theorem submit_mission_result_players (s : GameState)
    (mv : List (Nat × Bool)) :
    (submit_mission_result s mv).1.players = s.players := by
  unfold submit_mission_result
  dsimp only
  repeat' split
  all_goals rfl

theorem assassinate_players (s : GameState) (t : Nat) :
    (assassinate s t).1.players = s.players := by
  unfold assassinate
  dsimp only
  repeat' split
  all_goals rfl

theorem stepState_players (s : GameState) (a : Action) :
    (stepState s a).players = s.players := by
  cases a with
  | propose l m => exact propose_team_players s l m
  | vote p b => exact vote_on_team_players s p b
  | processVote => exact process_voting_result_players s
  | mission mv => exact submit_mission_result_players s mv
  | kill t => exact assassinate_players s t

theorem propose_team_leader (s : GameState) (l : Nat) (m : List Nat) :
    (propose_team s l m).1.current_leader = s.current_leader := by
  unfold propose_team
  repeat' split
  all_goals rfl

theorem vote_on_team_leader (s : GameState) (p : Nat) (a : Bool) :
    (vote_on_team s p a).1.current_leader = s.current_leader := by
  unfold vote_on_team
  repeat' split
  all_goals rfl

theorem assassinate_leader (s : GameState) (t : Nat) :
    (assassinate s t).1.current_leader = s.current_leader := by
  unfold assassinate
  dsimp only
  repeat' split
  all_goals rfl

theorem process_voting_result_leader (s : GameState) :
    (process_voting_result s).1.current_leader = s.current_leader ∨
    (process_voting_result s).1.current_leader =
      (s.current_leader + 1) % s.players.length := by
  unfold process_voting_result
  dsimp only
  repeat' split
  all_goals first | (left; rfl) | (right; rfl)

theorem submit_mission_result_leader (s : GameState)
    (mv : List (Nat × Bool)) :
    (submit_mission_result s mv).1.current_leader = s.current_leader ∨
    (submit_mission_result s mv).1.current_leader =
      (s.current_leader + 1) % s.players.length := by
  unfold submit_mission_result
  dsimp only
  repeat' split
  all_goals first | (left; rfl) | (right; rfl)

theorem stepState_leader (s : GameState) (a : Action) :
    (stepState s a).current_leader = s.current_leader ∨
    (stepState s a).current_leader =
      (s.current_leader + 1) % s.players.length := by
  cases a with
  | propose l m => exact Or.inl (propose_team_leader s l m)
  | vote p b => exact Or.inl (vote_on_team_leader s p b)
  | processVote => exact process_voting_result_leader s
  | mission mv => exact submit_mission_result_leader s mv
  | kill t => exact Or.inl (assassinate_leader s t)

theorem get_standard_roles_length (pc : Nat) (h5 : 5 ≤ pc)
    (h10 : pc ≤ 10) : (get_standard_roles pc).length = pc := by
  interval_cases pc <;> rfl

theorem reachable_leader_lt (s : GameState) (h : Reachable s) :
    s.current_leader < s.players.length := by
  induction h with
  | init pc names shuffled h5 h10 hlen hperm =>
    have hlen2 : (new_game pc names shuffled).players.length = pc := by
      rw [new_game_players_length, hperm.length_eq,
        get_standard_roles_length pc h5 h10, hlen, Nat.min_self]
    rw [hlen2]
    show 0 < pc
    omega
  | step s a hs ih =>
    rw [stepState_players]
    rcases stepState_leader s a with heq | heq
    · rw [heq]; exact ih
    · rw [heq]; exact Nat.mod_lt _ (by omega)

theorem rot_failed_vote (s : GameState)
    (hfull : s.players.length ≤ s.votes.length)
    (hreject :
      ¬ s.votes.length - approve_count s.votes < approve_count s.votes)
    (hlt : s.vote_round + 1 < 5) (hpos : 0 < s.players.length) :
    (process_voting_result s).1.current_leader =
      (s.current_leader + 1) % s.players.length := by
  unfold process_voting_result
  rw [if_neg (Nat.not_lt.mpr hfull), if_neg hreject,
    if_neg (show ¬ 5 ≤ s.vote_round + 1 by omega),
    if_neg (show ¬ s.players.length = 0 by omega)]

theorem keep_fifth_vote (s : GameState)
    (hfull : s.players.length ≤ s.votes.length)
    (hreject :
      ¬ s.votes.length - approve_count s.votes < approve_count s.votes)
    (hge : 5 ≤ s.vote_round + 1) :
    (process_voting_result s).1.current_leader = s.current_leader := by
  unfold process_voting_result
  rw [if_neg (Nat.not_lt.mpr hfull), if_neg hreject, if_pos hge]

theorem rot_mission_advance (s : GameState) (mv : List (Nat × Bool))
    (cfg : MissionConfig)
    (hphase : s.current_phase = GamePhase.MISSION)
    (hkeys : same_id_set (vote_keys mv) s.proposed_team = true)
    (hcfg : py_current_config s = some cfg)
    (hs1 : (if fail_count_of mv < cfg.fails_needed
        then s.successful_missions + 1 else s.successful_missions) < 3)
    (hf1 : (if fail_count_of mv < cfg.fails_needed
        then s.failed_missions else s.failed_missions + 1) < 3)
    (hround : s.current_round + 1 ≤ s.mission_configs.length)
    (hpos : 0 < s.players.length) :
    (submit_mission_result s mv).1.current_leader =
      (s.current_leader + 1) % s.players.length := by
  unfold submit_mission_result
  rw [if_neg (by simp [hphase]), if_neg (by simp [hkeys]), hcfg]
  dsimp only
  rw [if_neg (Nat.not_le.mpr hs1), if_neg (Nat.not_le.mpr hf1),
    if_neg (Nat.not_lt.mpr hround),
    if_neg (show ¬ s.players.length = 0 by omega)]

theorem keep_mission_assassination (s : GameState)
    (mv : List (Nat × Bool)) (cfg : MissionConfig)
    (hphase : s.current_phase = GamePhase.MISSION)
    (hkeys : same_id_set (vote_keys mv) s.proposed_team = true)
    (hcfg : py_current_config s = some cfg)
    (hs1 : 3 ≤ (if fail_count_of mv < cfg.fails_needed
        then s.successful_missions + 1 else s.successful_missions)) :
    (submit_mission_result s mv).1.current_leader = s.current_leader ∧
    (submit_mission_result s mv).1.current_phase =
      GamePhase.ASSASSINATION := by
  unfold submit_mission_result
  rw [if_neg (by simp [hphase]), if_neg (by simp [hkeys]), hcfg]
  dsimp only
  rw [if_pos hs1]
  exact ⟨rfl, rfl⟩

theorem keep_mission_failed3 (s : GameState) (mv : List (Nat × Bool))
    (cfg : MissionConfig)
    (hphase : s.current_phase = GamePhase.MISSION)
    (hkeys : same_id_set (vote_keys mv) s.proposed_team = true)
    (hcfg : py_current_config s = some cfg)
    (hs1 : (if fail_count_of mv < cfg.fails_needed
        then s.successful_missions + 1 else s.successful_missions) < 3)
    (hf1 : 3 ≤ (if fail_count_of mv < cfg.fails_needed
        then s.failed_missions else s.failed_missions + 1)) :
    (submit_mission_result s mv).1.current_leader = s.current_leader ∧
    (submit_mission_result s mv).1.game_over = true := by
  unfold submit_mission_result
  rw [if_neg (by simp [hphase]), if_neg (by simp [hkeys]), hcfg]
  dsimp only
  rw [if_neg (Nat.not_le.mpr hs1), if_pos hf1]
  exact ⟨rfl, rfl⟩

theorem agree_failed3 (s : GameState) (mv : List (Nat × Bool))
    (cfg : MissionConfig)
    (hphase : s.current_phase = GamePhase.MISSION)
    (hkeys : same_id_set (vote_keys mv) s.proposed_team = true)
    (hcfg : py_current_config s = some cfg)
    (hs1 : (if fail_count_of mv < cfg.fails_needed
        then s.successful_missions + 1 else s.successful_missions) < 3)
    (hf1 : 3 ≤ (if fail_count_of mv < cfg.fails_needed
        then s.failed_missions else s.failed_missions + 1)) :
    (submit_mission_result s mv).1.game_over = true ∧
    (submit_mission_result s mv).1.winner = some Team.EVIL ∧
    check_game_over (submit_mission_result s mv).1 =
      some (true, some Team.EVIL) := by
  unfold submit_mission_result
  rw [if_neg (by simp [hphase]), if_neg (by simp [hkeys]), hcfg]
  dsimp only
  rw [if_neg (Nat.not_le.mpr hs1), if_pos hf1]
  refine ⟨rfl, rfl, ?_⟩
  unfold check_game_over
  dsimp only
  rw [if_neg (Nat.not_le.mpr hs1), if_pos hf1]

theorem agree_stalemate (s : GameState)
    (hfull : s.players.length ≤ s.votes.length)
    (hreject :
      ¬ s.votes.length - approve_count s.votes < approve_count s.votes)
    (hvr : s.vote_round = 4)
    (hsucc : s.successful_missions < 3)
    (hfail : s.failed_missions < 3)
    (hround : s.current_round < s.mission_configs.length) :
    (process_voting_result s).1.game_over = true ∧
    (process_voting_result s).1.winner = some Team.EVIL ∧
    check_game_over (process_voting_result s).1 =
      some (true, some Team.EVIL) := by
  unfold process_voting_result
  rw [if_neg (Nat.not_lt.mpr hfull), if_neg hreject,
    if_pos (show 5 ≤ s.vote_round + 1 by omega)]
  refine ⟨rfl, rfl, ?_⟩
  unfold check_game_over
  dsimp only
  rw [if_neg (Nat.not_le.mpr hsucc), if_neg (Nat.not_le.mpr hfail),
    if_pos (show 5 ≤ s.vote_round + 1 ∧
      s.current_round < s.mission_configs.length by exact ⟨by omega, hround⟩)]

theorem render_visible_entry_player_id (player vp : Player) :
    (render_visible_entry player vp).player_id = vp.player_id := by
  unfold render_visible_entry
  repeat' split
  all_goals rfl

theorem render_all_entry_player_id (player : Player)
    (visible : List Player) (p : Player) :
    (render_all_entry player visible p).player_id = p.player_id := by
  unfold render_all_entry
  cases hfind : visible.find? (fun vp => vp.player_id == p.player_id) with
  | none => rfl
  | some vp =>
    have hvp := List.find?_some hfind
    simp only [beq_iff_eq] at hvp
    simp [render_visible_entry_player_id, hvp]

theorem render_all_entry_of_some (player : Player) (visible : List Player)
    (p vp : Player)
    (hfind : visible.find? (fun x => x.player_id == p.player_id) = some vp) :
    render_all_entry player visible p = render_visible_entry player vp := by
  unfold render_all_entry
  rw [hfind]

theorem render_all_entry_of_none (player : Player) (visible : List Player)
    (p : Player)
    (hfind : visible.find? (fun x => x.player_id == p.player_id) = none) :
    render_all_entry player visible p = render_hidden_entry p := by
  unfold render_all_entry
  rw [hfind]

theorem find_eq_some_of_unique {α : Type} (p : α → Bool) {l : List α}
    {x : α} (hx : x ∈ l) (hpx : p x = true)
    (huniq : ∀ y ∈ l, p y = true → y = x) : l.find? p = some x := by
  induction l with
  | nil => cases hx
  | cons a as ih =>
    rcases List.mem_cons.mp hx with rfl | hx2
    · rw [List.find?_cons_of_pos _ hpx]
    · by_cases hpa : p a = true
      · have ha : a = x := huniq a (List.mem_cons_self a as) hpa
        subst ha
        rw [List.find?_cons_of_pos _ hpa]
      · rw [List.find?_cons_of_neg _ hpa]
        exact ih hx2 (fun y hy hpy => huniq y (List.mem_cons_of_mem a hy) hpy)

/-! ### Claims -/

/-- C1: the role lists do contain exactly one MERLIN and one ASSASSIN for
every supported count, and the evil count of `get_standard_roles` matches
`get_evil_count` for 5..8 players — but for 9 players the role list
contains 4 EVIL roles against the canonical 3, and for 10 players 5 EVIL
roles against the canonical 4. -/
theorem C1_role_table_evil_count :
    ([5, 6, 7, 8, 9, 10].all (fun pc =>
        ((get_standard_roles pc).filter
            (fun r => r == RoleType.MERLIN)).length == 1 &&
        ((get_standard_roles pc).filter
            (fun r => r == RoleType.ASSASSIN)).length == 1)) = true ∧
    ([5, 6, 7, 8].all (fun pc =>
        ((get_standard_roles pc).filter
            (fun r => r.team == Team.EVIL)).length == get_evil_count pc))
      = true ∧
    ((get_standard_roles 9).filter
        (fun r => r.team == Team.EVIL)).length = 4 ∧
    get_evil_count 9 = 3 ∧
    ((get_standard_roles 10).filter
        (fun r => r.team == Team.EVIL)).length = 5 ∧
    get_evil_count 10 = 4 := by
  decide

/-- C2 counterexample: constructing a game with `player_count = 11`
(outside 5..10) and 11 names raises no error — it silently produces a
usable DISCUSSION-phase session on the 5-player fallback configuration —
and constructing with 3 names for a 5-player game silently truncates to 3
players. -/
theorem C2_counterexample :
    (new_game 11 ["a", "b", "c", "d", "e", "f", "g", "h", "i", "j", "k"]
        (get_standard_roles 11)).players.length = 5 ∧
    (new_game 11 ["a", "b", "c", "d", "e", "f", "g", "h", "i", "j", "k"]
        (get_standard_roles 11)).current_phase = GamePhase.DISCUSSION ∧
    (new_game 11 ["a", "b", "c", "d", "e", "f", "g", "h", "i", "j", "k"]
        (get_standard_roles 11)).mission_configs = MISSION_CONFIGS_5 ∧
    (new_game 5 ["a", "b", "c"]
        (get_standard_roles 5)).players.length = 3 ∧
    (new_game 5 ["a", "b", "c"]
        (get_standard_roles 5)).current_phase = GamePhase.DISCUSSION := by
  refine ⟨rfl, rfl, rfl, rfl, rfl⟩

/-- C2 (amended): construction never fails.  For any player count and any
name list the constructor returns a DISCUSSION-phase session with
`min (len names) (len roles)` players (silent truncation via `zip`), and
for a player count outside 5..10 both the role list and the mission
configs silently fall back to the 5-player tables. -/
theorem C2_construction_never_fails (pc : Nat) (names : List String)
    (shuffled : List RoleType)
    (hperm : shuffled.Perm (get_standard_roles pc)) :
    (new_game pc names shuffled).current_phase = GamePhase.DISCUSSION ∧
    (new_game pc names shuffled).players.length =
      min names.length (get_standard_roles pc).length ∧
    ((pc < 5 ∨ 10 < pc) →
      get_standard_roles pc = get_standard_roles 5 ∧
      (new_game pc names shuffled).mission_configs = MISSION_CONFIGS_5) := by
  refine ⟨rfl, ?_, fun h => ⟨get_standard_roles_out_of_range pc h, ?_⟩⟩
  · rw [new_game_players_length, hperm.length_eq]
  · show get_mission_configs pc = MISSION_CONFIGS_5
    exact get_mission_configs_out_of_range pc h

/-- C2 witness: the amended construction theorem applied to the concrete
11-player call with the identity shuffle. -/
theorem C2_witness :
    (new_game 11 ["a"] (get_standard_roles 11)).current_phase =
      GamePhase.DISCUSSION ∧
    (new_game 11 ["a"] (get_standard_roles 11)).players.length =
      min (["a"] : List String).length (get_standard_roles 11).length ∧
    ((11 < 5 ∨ 10 < 11) →
      get_standard_roles 11 = get_standard_roles 5 ∧
      (new_game 11 ["a"] (get_standard_roles 11)).mission_configs =
        MISSION_CONFIGS_5) :=
  C2_construction_never_fails 11 ["a"] (get_standard_roles 11)
    (List.Perm.refl _)

/-- C3: `propose_team` performs no phase check, so a wrong-phase call is
not rejected.  In a reachable MISSION-phase state the leader's proposal is
accepted and mutates the state (phase jumps back to VOTING, the proposed
team is overwritten); likewise in a reachable FINISHED state with
`game_over = true`, contradicting the claim that such calls return a
failure indicator and leave the state unchanged. -/
theorem C3_wrong_phase_propose_accepted :
    Reachable demo_mission ∧
    demo_mission.current_phase = GamePhase.MISSION ∧
    (propose_team demo_mission 0 [2, 3]).2 = some true ∧
    (propose_team demo_mission 0 [2, 3]).1.current_phase =
      GamePhase.VOTING ∧
    (propose_team demo_mission 0 [2, 3]).1.proposed_team = [2, 3] ∧
    demo_stalemate.game_over = true ∧
    demo_stalemate.current_phase = GamePhase.FINISHED ∧
    (propose_team demo_stalemate 4 [2, 3]).2 = some true ∧
    (propose_team demo_stalemate 4 [2, 3]).1.current_phase =
      GamePhase.VOTING := by
  refine ⟨?_, by decide, by decide, by decide, by decide, by decide,
    by decide, by decide, by decide⟩
  exact Reachable.step _ _ (reachable_runActions reachable_demo_g0 _)

/-- C4: `vote_on_team` performs no player-id validity check.  In a
reachable VOTING state whose players have ids 0..4, a vote by the unknown
id 99 is accepted and recorded, so the key set of `votes` escapes the
player ids; and even once all five players have voted (votes full), a
further vote by another unknown id is still accepted before the vote is
resolved. -/
theorem C4_unknown_voter_accepted :
    Reachable demo_voting ∧
    demo_voting.current_phase = GamePhase.VOTING ∧
    (demo_voting.players.map Player.player_id = [0, 1, 2, 3, 4]) ∧
    (vote_on_team demo_voting 99 true).2 = true ∧
    (vote_on_team demo_voting 99 true).1.votes = [(99, true)] ∧
    demo_full_votes.votes.length = demo_full_votes.players.length ∧
    (vote_on_team demo_full_votes 98 true).2 = true ∧
    (vote_on_team demo_full_votes 98 true).1.votes.length = 6 := by
  refine ⟨?_, by decide, by decide, by decide, by decide, by decide,
    by decide, by decide⟩
  exact Reachable.step _ _ reachable_demo_g0

/-- C5 counterexample: in the reachable state right after the round-1 vote
passes unanimously, the phase is MISSION and `vote_round` is 0 as claimed,
but the votes map still holds all five recorded votes — it is not
cleared. -/
theorem C5_counterexample :
    Reachable demo_mission ∧
    demo_mission.current_phase = GamePhase.MISSION ∧
    demo_mission.vote_round = 0 ∧
    demo_mission.votes.length = 5 := by
  refine ⟨?_, by decide, by decide, by decide⟩
  exact Reachable.step _ _ (reachable_runActions reachable_demo_g0 _)

/-- C5 (amended): when `process_voting_result` is called with all votes
cast and a strict majority of approvals, the resulting state has
`vote_round = 0` and phase MISSION, and the votes map is left exactly as
it was (it is cleared only on a rejected vote or on the advance to the
next round). -/
theorem C5_pass_keeps_votes (s : GameState)
    (hfull : s.players.length ≤ s.votes.length)
    (hpass : s.votes.length - approve_count s.votes < approve_count s.votes) :
    process_voting_result s =
      ({ s with current_phase := GamePhase.MISSION, vote_round := 0 },
       some (true, true)) := by
  unfold process_voting_result
  rw [if_neg (Nat.not_lt.mpr hfull), if_pos hpass]

/-- C5 witness: the amended theorem applied to the concrete state with
all five approvals cast. -/
theorem C5_witness :
    process_voting_result demo_full_votes =
      ({ demo_full_votes with
          current_phase := GamePhase.MISSION, vote_round := 0 },
       some (true, true)) :=
  C5_pass_keeps_votes demo_full_votes (by decide) (by decide)

/-- C9: resolving a fifth rejected proposal (all votes cast, no strict
majority of approvals, `vote_round = 4` beforehand) makes the state
terminal with an EVIL win and phase FINISHED, whatever the rest of the
state — in particular `successful_missions` — holds. -/
theorem C9_fifth_rejection_terminal (s : GameState)
    (hfull : s.players.length ≤ s.votes.length)
    (hreject :
      ¬ s.votes.length - approve_count s.votes < approve_count s.votes)
    (hvr : s.vote_round = 4) :
    (process_voting_result s).1.game_over = true ∧
    (process_voting_result s).1.winner = some Team.EVIL ∧
    (process_voting_result s).1.current_phase = GamePhase.FINISHED ∧
    (process_voting_result s).1.vote_round = 5 ∧
    (process_voting_result s).2 = some (true, false) := by
  unfold process_voting_result
  rw [if_neg (Nat.not_lt.mpr hfull), if_neg hreject,
    if_pos (show 5 ≤ s.vote_round + 1 by omega)]
  exact ⟨rfl, rfl, rfl, by simp [hvr], rfl⟩

/-- C9 witness: the theorem applied to the concrete state with four prior
rejections and the fifth proposal fully voted down. -/
theorem C9_witness :
    (process_voting_result demo_before_fifth_reject).1.game_over = true ∧
    (process_voting_result demo_before_fifth_reject).1.winner =
      some Team.EVIL ∧
    (process_voting_result demo_before_fifth_reject).1.current_phase =
      GamePhase.FINISHED ∧
    (process_voting_result demo_before_fifth_reject).1.vote_round = 5 ∧
    (process_voting_result demo_before_fifth_reject).2 =
      some (true, false) :=
  C9_fifth_rejection_terminal demo_before_fifth_reject
    (by decide) (by decide) (by decide)

/-- C10: calling `assassinate` in ASSASSINATION phase (with the three
successes that phase implies) on a target id no player has does not
return a failure indicator: the target is recorded into the state and the
winner lookup inside `check_game_over` then raises an unhandled
`StopIteration` (modelled as the `none` result), leaving the state mutated
by the failed call. -/
theorem C10_assassinate_unknown_target (s : GameState) (target : Nat)
    (hphase : s.current_phase = GamePhase.ASSASSINATION)
    (hsucc : 3 ≤ s.successful_missions)
    (hmiss : ∀ p ∈ s.players, p.player_id ≠ target) :
    assassinate s target =
      ({ s with assassination_target := some target }, none) := by
  unfold assassinate
  rw [if_neg (by simp [hphase])]
  have hchk : check_game_over
      { s with assassination_target := some target } = none := by
    unfold check_game_over
    rw [if_pos hsucc, if_pos hphase]
    have hfind : List.find? (fun p => p.player_id == target)
        ({ s with assassination_target := some target }).players = none :=
      List.find?_eq_none.mpr (fun p hp => by simp [hmiss p hp])
    simp [hfind]
  simp [hchk]

/-- C10 witness: the theorem applied to the concrete ASSASSINATION-phase
state and the unknown target id 99. -/
theorem C10_witness :
    assassinate demo_assassination 99 =
      ({ demo_assassination with assassination_target := some 99 },
       none) :=
  C10_assassinate_unknown_target demo_assassination 99
    (by decide) (by decide) (by decide)

/-- C6 counterexample: the fifth failed vote does not rotate the leader,
and neither does a mission that enters ASSASSINATION or one that brings
`failed_missions` to 3.  In the reachable state with four prior rejections
and the fifth proposal fully voted down, the leader is 4 out of 5 players;
the claim demands leader `(4+1) % 5 = 0` after resolving the vote, but the
resolved (terminal) state still has leader 4.  Likewise the third
successful mission (entering ASSASSINATION) keeps leader 2, and a third
failed mission keeps leader 2. -/
theorem C6_counterexample :
    Reachable demo_stalemate ∧
    demo_before_fifth_reject.players.length = 5 ∧
    demo_before_fifth_reject.votes.length = 5 ∧
    demo_before_fifth_reject.current_leader = 4 ∧
    demo_stalemate = (process_voting_result demo_before_fifth_reject).1 ∧
    demo_stalemate.game_over = true ∧
    demo_stalemate.current_leader = 4 ∧
    (demo_before_fifth_reject.current_leader + 1) %
      demo_before_fifth_reject.players.length = 0 ∧
    demo_succ2_mission.current_leader = 2 ∧
    (submit_mission_result demo_succ2_mission
        [(0, true), (1, true)]).1.current_phase =
      GamePhase.ASSASSINATION ∧
    (submit_mission_result demo_succ2_mission
        [(0, true), (1, true)]).1.current_leader = 2 ∧
    demo_fail2_mission.current_leader = 2 ∧
    (submit_mission_result demo_fail2_mission
        [(0, false), (1, false)]).1.game_over = true ∧
    (submit_mission_result demo_fail2_mission
        [(0, false), (1, false)]).1.current_leader = 2 := by
  refine ⟨?_, by decide, by decide, by decide, by decide, by decide,
    by decide, by decide, by decide, by decide, by decide, by decide,
    by decide, by decide⟩
  exact Reachable.step _ _ (reachable_runActions reachable_demo_g0 _)

/-- C6 (amended): on every reachable state the leader is a valid player id
(strictly below the player count); the leader advances by exactly one seat
modulo N on every non-terminal failed vote and on every completed mission
that advances to the next round, but stays unchanged on the fifth failed
vote, on a mission that enters ASSASSINATION, and on a mission that brings
`failed_missions` to 3. -/
theorem C6_leader_rotation :
    (∀ s : GameState, Reachable s →
      s.current_leader < s.players.length) ∧
    (∀ s : GameState, s.players.length ≤ s.votes.length →
      ¬ s.votes.length - approve_count s.votes < approve_count s.votes →
      s.vote_round + 1 < 5 → 0 < s.players.length →
      (process_voting_result s).1.current_leader =
        (s.current_leader + 1) % s.players.length) ∧
    (∀ s : GameState, s.players.length ≤ s.votes.length →
      ¬ s.votes.length - approve_count s.votes < approve_count s.votes →
      5 ≤ s.vote_round + 1 →
      (process_voting_result s).1.current_leader = s.current_leader) ∧
    (∀ (s : GameState) (mv : List (Nat × Bool)) (cfg : MissionConfig),
      s.current_phase = GamePhase.MISSION →
      same_id_set (vote_keys mv) s.proposed_team = true →
      py_current_config s = some cfg →
      (if fail_count_of mv < cfg.fails_needed
        then s.successful_missions + 1 else s.successful_missions) < 3 →
      (if fail_count_of mv < cfg.fails_needed
        then s.failed_missions else s.failed_missions + 1) < 3 →
      s.current_round + 1 ≤ s.mission_configs.length →
      0 < s.players.length →
      (submit_mission_result s mv).1.current_leader =
        (s.current_leader + 1) % s.players.length) ∧
    (∀ (s : GameState) (mv : List (Nat × Bool)) (cfg : MissionConfig),
      s.current_phase = GamePhase.MISSION →
      same_id_set (vote_keys mv) s.proposed_team = true →
      py_current_config s = some cfg →
      3 ≤ (if fail_count_of mv < cfg.fails_needed
        then s.successful_missions + 1 else s.successful_missions) →
      (submit_mission_result s mv).1.current_leader = s.current_leader) ∧
    (∀ (s : GameState) (mv : List (Nat × Bool)) (cfg : MissionConfig),
      s.current_phase = GamePhase.MISSION →
      same_id_set (vote_keys mv) s.proposed_team = true →
      py_current_config s = some cfg →
      (if fail_count_of mv < cfg.fails_needed
        then s.successful_missions + 1 else s.successful_missions) < 3 →
      3 ≤ (if fail_count_of mv < cfg.fails_needed
        then s.failed_missions else s.failed_missions + 1) →
      (submit_mission_result s mv).1.current_leader = s.current_leader) :=
  ⟨reachable_leader_lt,
   rot_failed_vote,
   keep_fifth_vote,
   rot_mission_advance,
   fun s mv cfg hphase hkeys hcfg hs1 =>
     (keep_mission_assassination s mv cfg hphase hkeys hcfg hs1).1,
   fun s mv cfg hphase hkeys hcfg hs1 hf1 =>
     (keep_mission_failed3 s mv cfg hphase hkeys hcfg hs1 hf1).1⟩

/-- C6 witness: each part of the amended leader theorem applied to a
concrete reachable state of the demonstration game. -/
theorem C6_witness :
    demo_g0.current_leader < demo_g0.players.length ∧
    (process_voting_result demo_first_reject_pre).1.current_leader =
      (demo_first_reject_pre.current_leader + 1) %
        demo_first_reject_pre.players.length ∧
    (process_voting_result demo_before_fifth_reject).1.current_leader =
      demo_before_fifth_reject.current_leader ∧
    (submit_mission_result demo_mission
        [(0, true), (1, true)]).1.current_leader =
      (demo_mission.current_leader + 1) % demo_mission.players.length ∧
    (submit_mission_result demo_succ2_mission
        [(0, true), (1, true)]).1.current_leader =
      demo_succ2_mission.current_leader ∧
    (submit_mission_result demo_fail2_mission
        [(0, false), (1, false)]).1.current_leader =
      demo_fail2_mission.current_leader := by
  have h := C6_leader_rotation
  exact ⟨h.1 demo_g0 reachable_demo_g0,
    h.2.1 demo_first_reject_pre (by decide) (by decide) (by decide)
      (by decide),
    h.2.2.1 demo_before_fifth_reject (by decide) (by decide) (by decide),
    h.2.2.2.1 demo_mission [(0, true), (1, true)] ⟨1, 2, 1⟩ (by decide)
      (by decide) (by decide) (by decide) (by decide) (by decide)
      (by decide),
    h.2.2.2.2.1 demo_succ2_mission [(0, true), (1, true)] ⟨3, 2, 1⟩
      (by decide) (by decide) (by decide) (by decide),
    h.2.2.2.2.2 demo_fail2_mission [(0, false), (1, false)] ⟨3, 2, 1⟩
      (by decide) (by decide) (by decide) (by decide) (by decide)⟩

/-- C7 counterexample: `check_game_over` disagrees with the inline
terminal verdict on reachable states.  After the assassination is resolved
(phase FINISHED, `game_over = true`, winner EVIL since player 0 is MERLIN)
the checker returns `(false, none)`; and after a five-rejection stalemate
in the fifth mission round it also returns `(false, none)` against the
recorded EVIL win. -/
theorem C7_counterexample :
    Reachable demo_after_kill ∧
    demo_after_kill.game_over = true ∧
    demo_after_kill.winner = some Team.EVIL ∧
    demo_after_kill.current_phase = GamePhase.FINISHED ∧
    check_game_over demo_after_kill = some (false, none) ∧
    Reachable demo_round5_stalemate ∧
    demo_round5_stalemate.game_over = true ∧
    demo_round5_stalemate.winner = some Team.EVIL ∧
    check_game_over demo_round5_stalemate = some (false, none) := by
  refine ⟨?_, by decide, by decide, by decide, by decide, ?_,
    by decide, by decide, by decide⟩
  · exact Reachable.step _ _
      (reachable_runActions reachable_demo_g0 _)
  · exact reachable_runActions reachable_demo_g0 _

/-- C7 (amended): the checker agrees with the inline verdict on the two
inline terminal decisions that leave the state in their own branch — a
mission that brings `failed_missions` to 3, and a five-rejection stalemate
in a round before the last — but not on FINISHED states reached by
assassination or by a last-round stalemate. -/
theorem C7_checker_agreement :
    (∀ (s : GameState) (mv : List (Nat × Bool)) (cfg : MissionConfig),
      s.current_phase = GamePhase.MISSION →
      same_id_set (vote_keys mv) s.proposed_team = true →
      py_current_config s = some cfg →
      (if fail_count_of mv < cfg.fails_needed
        then s.successful_missions + 1 else s.successful_missions) < 3 →
      3 ≤ (if fail_count_of mv < cfg.fails_needed
        then s.failed_missions else s.failed_missions + 1) →
      ((submit_mission_result s mv).1.game_over = true ∧
       (submit_mission_result s mv).1.winner = some Team.EVIL ∧
       check_game_over (submit_mission_result s mv).1 =
         some (true, some Team.EVIL))) ∧
    (∀ s : GameState, s.players.length ≤ s.votes.length →
      ¬ s.votes.length - approve_count s.votes < approve_count s.votes →
      s.vote_round = 4 →
      s.successful_missions < 3 → s.failed_missions < 3 →
      s.current_round < s.mission_configs.length →
      ((process_voting_result s).1.game_over = true ∧
       (process_voting_result s).1.winner = some Team.EVIL ∧
       check_game_over (process_voting_result s).1 =
         some (true, some Team.EVIL))) :=
  ⟨agree_failed3, agree_stalemate⟩

/-- C7 witness: both agreement cases applied to concrete reachable states
(third failed mission; stalemate in round 1). -/
theorem C7_witness :
    ((submit_mission_result demo_fail2_mission
        [(0, false), (1, false)]).1.game_over = true ∧
     (submit_mission_result demo_fail2_mission
        [(0, false), (1, false)]).1.winner = some Team.EVIL ∧
     check_game_over (submit_mission_result demo_fail2_mission
        [(0, false), (1, false)]).1 = some (true, some Team.EVIL)) ∧
    ((process_voting_result demo_before_fifth_reject).1.game_over =
        true ∧
     (process_voting_result demo_before_fifth_reject).1.winner =
        some Team.EVIL ∧
     check_game_over (process_voting_result demo_before_fifth_reject).1 =
        some (true, some Team.EVIL)) := by
  have h := C7_checker_agreement
  exact ⟨h.1 demo_fail2_mission [(0, false), (1, false)] ⟨3, 2, 1⟩
      (by decide) (by decide) (by decide) (by decide) (by decide),
    h.2 demo_before_fifth_reject (by decide) (by decide) (by decide)
      (by decide) (by decide) (by decide)⟩

/-- C8: the private-information payload enforces the redaction rules: the
viewer's own entry carries its exact role and team; the entry of a visible
other carries the exact team with the role withheld, except for a PERCIVAL
viewer whose entries for others carry only the ambiguous possible-Merlin
flag with team withheld; the entry of a non-visible other carries neither
team nor role; and no entry for a player other than the viewer (in either
the `visible_players` or the `all_players` list) ever carries a role. -/
theorem C8_private_info_redaction (player : Player)
    (all_players : List Player)
    (hnd : (all_players.map Player.player_id).Nodup)
    (hp : player ∈ all_players) :
    (∀ q ∈ all_players,
      ∀ e ∈ (get_private_info player all_players).all_players,
      e.player_id = q.player_id →
      ((q.player_id = player.player_id →
         e.is_self = true ∧ e.role = some player.role_type ∧
         e.team = some player.role_type.team) ∧
       (q.player_id ≠ player.player_id →
         e.is_self = false ∧ e.role = none ∧
         (can_see player.role_type q.role_type = true →
           (player.role_type = RoleType.PERCIVAL →
             e.possible_merlin = true ∧ e.team = none) ∧
           (player.role_type ≠ RoleType.PERCIVAL →
             e.possible_merlin = false ∧
             e.team = some q.role_type.team)) ∧
         (can_see player.role_type q.role_type = false →
           e.team = none ∧ e.possible_merlin = false)))) ∧
    (∀ e ∈ (get_private_info player all_players).visible_players,
      e.player_id ≠ player.player_id → e.role = none) := by
  constructor
  · intro q hq e he heq
    simp only [get_private_info] at he
    obtain ⟨r, hr, rfl⟩ := List.mem_map.mp he
    rw [render_all_entry_player_id] at heq
    have hrq : r = q := List.inj_on_of_nodup_map hnd hr hq heq
    subst hrq
    by_cases hqp : r.player_id = player.player_id
    · -- the viewer's own entry
      have hqplayer : r = player := List.inj_on_of_nodup_map hnd hr hp hqp
      subst hqplayer
      have hfind : (get_visible_players r all_players).find?
          (fun x => x.player_id == r.player_id) = some r :=
        List.find?_cons_of_pos _ (by simp)
      rw [render_all_entry_of_some r _ r r hfind]
      refine ⟨fun _ => ?_, fun hne => absurd rfl hne⟩
      unfold render_visible_entry
      rw [if_pos rfl]
      exact ⟨rfl, rfl, rfl⟩
    · refine ⟨fun h => absurd h hqp, fun _ => ?_⟩
      have hhead : ((fun x : Player => x.player_id == r.player_id)
          player) = false := by
        simp only [beq_eq_false_iff_ne, ne_eq]
        exact fun h => hqp h.symm
      by_cases hsee : can_see player.role_type r.role_type = true
      · -- r is visible to the viewer: the find returns r itself
        have hmem : r ∈ all_players.filter (fun other =>
            other.player_id != player.player_id &&
            can_see player.role_type other.role_type) :=
          List.mem_filter.mpr ⟨hr, by simp [hqp, hsee]⟩
        have hfind : (get_visible_players player all_players).find?
            (fun x => x.player_id == r.player_id) = some r := by
          unfold get_visible_players
          rw [List.find?_cons_of_neg _ (by simp [hhead])]
          refine find_eq_some_of_unique _ hmem (by simp) ?_
          intro y hy hyq
          exact List.inj_on_of_nodup_map hnd
            (List.mem_of_mem_filter hy) hr (by simpa using hyq)
        rw [render_all_entry_of_some player _ r r hfind]
        unfold render_visible_entry
        rw [if_neg hqp]
        by_cases hperc : player.role_type = RoleType.PERCIVAL
        · rw [if_pos hperc]
          exact ⟨rfl, rfl,
            fun _ => ⟨fun _ => ⟨rfl, rfl⟩, fun hn => absurd hperc hn⟩,
            fun hfalse => by rw [hsee] at hfalse; cases hfalse⟩
        · rw [if_neg hperc]
          exact ⟨rfl, rfl,
            fun _ => ⟨fun h => absurd h hperc, fun _ => ⟨rfl, rfl⟩⟩,
            fun hfalse => by rw [hsee] at hfalse; cases hfalse⟩
      · -- r is not visible: the find misses
        have hsee2 : can_see player.role_type r.role_type = false := by
          revert hsee
          cases can_see player.role_type r.role_type <;> simp
        have hfind : (get_visible_players player all_players).find?
            (fun x => x.player_id == r.player_id) = none := by
          unfold get_visible_players
          rw [List.find?_cons_of_neg _ (by simp [hhead])]
          rw [List.find?_eq_none]
          intro y hy hyq
          have hy2 := List.mem_filter.mp hy
          have hyr : y = r := List.inj_on_of_nodup_map hnd
            hy2.1 hr (by simpa using hyq)
          subst hyr
          have := hy2.2
          simp [hsee2] at this
        rw [render_all_entry_of_none player _ r hfind]
        refine ⟨rfl, rfl, fun htrue => ?_, fun _ => ⟨rfl, rfl⟩⟩
        rw [hsee2] at htrue
        cases htrue
  · intro e he hne
    simp only [get_private_info] at he
    obtain ⟨vp, hvp, rfl⟩ := List.mem_map.mp he
    have hvpne : vp.player_id ≠ player.player_id := by
      rw [← render_visible_entry_player_id player vp]
      exact hne
    unfold render_visible_entry
    rw [if_neg hvpne]
    split <;> rfl

/-- C8 witness: the redaction theorem applied to the concrete
demonstration game, extracting MERLIN's entry for the ASSASSIN (team
revealed, role withheld). -/
theorem C8_witness :
    ((get_private_info demo_merlin demo_g0.players).all_players.getD 1
        (render_hidden_entry demo_merlin)).role = none ∧
    ((get_private_info demo_merlin demo_g0.players).all_players.getD 1
        (render_hidden_entry demo_merlin)).team = some Team.EVIL := by
  have h := (C8_private_info_redaction demo_merlin demo_g0.players
      (by decide) (by decide)).1
      { player_id := 1, name := "B", role_type := .ASSASSIN }
      (by decide)
      ((get_private_info demo_merlin demo_g0.players).all_players.getD 1
        (render_hidden_entry demo_merlin))
      (by decide) (by decide)
  have h2 := h.2 (by decide)
  exact ⟨h2.2.1, ((h2.2.2.1 (by decide)).2 (by decide)).2⟩

end Avalon
